import Mathlib

set_option maxRecDepth 40000

/-!
Verification development for the `cce` plant-disease HTTP gateway
(`src/app.py`).  The file shallow-embeds the Python source: Python string
operations (`str.strip`, `str.replace`, the `in` operator, subscription,
truthiness, `str()`), the behaviour of `json.loads`, and the two Flask
request handlers `analyze_image_endpoint` and `get_treatment_plan_endpoint`.
External effects (PIL image decoding, Gemini model invocation, the text of
a `JSONDecodeError`) are passed in as an explicit environment, and each
handler additionally returns the list of external steps it performed, so
that "no model call happened" is expressible.
-/

namespace CCE

/-- Single-quote character (codepoint 39), used to build Python-style
message strings. -/
def squote : Char := Char.ofNat 39

/-- Single-quote as a one-character string. -/
def sq : String := String.mk [squote]

/-- Whitespace characters removed by Python `str.strip()` (ASCII subset:
space, tab, newline, carriage return, vertical tab, form feed). -/
def isPySpace (c : Char) : Bool :=
  c = ' ' || c = '\t' || c = '\n' || c = '\r' || c = Char.ofNat 11 || c = Char.ofNat 12

/-- Embedding of Python `s.strip()`: drop leading and trailing whitespace. -/
def pyStrip (s : String) : String :=
  String.mk (((s.data.dropWhile isPySpace).reverse.dropWhile isPySpace).reverse)

/-- Core of Python `s.replace(old, new)`: scan left to right, replacing each
non-overlapping occurrence of `old` and continuing after the inserted `new`
(the inserted text is never rescanned).  Fuel-based so that it is structural
and kernel-evaluable; fuel equal to the input length always suffices because
every step consumes at least one input character. -/
def replaceAllFuel (old new : List Char) : Nat → List Char → List Char
  | 0, s => s
  | _ + 1, [] => []
  | fuel + 1, c :: rest =>
    if !old.isEmpty && old.isPrefixOf (c :: rest) then
      new ++ replaceAllFuel old new fuel (rest.drop (old.length - 1))
    else
      c :: replaceAllFuel old new fuel rest

/-- Embedding of Python `s.replace(old, new)` for nonempty `old` (the only
way the source uses it). -/
def pyReplace (s old new : String) : String :=
  String.mk (replaceAllFuel old.data new.data s.data.length s.data)

/-- Core of Python `s.split(old)`: the segments of `s` between consecutive
non-overlapping occurrences of `old`, scanning left to right. -/
def splitOnFuel (old : List Char) : Nat → List Char → List (List Char)
  | 0, s => [s]
  | _ + 1, [] => [[]]
  | fuel + 1, c :: rest =>
    if !old.isEmpty && old.isPrefixOf (c :: rest) then
      [] :: splitOnFuel old fuel (rest.drop (old.length - 1))
    else
      match splitOnFuel old fuel rest with
      | [] => [[c]]
      | g :: gs => (c :: g) :: gs

/-- Deletion of every non-overlapping occurrence of `old` from `s`, stated
independently of `replaceAllFuel`: split on `old` and concatenate the
segments. -/
def deleteEverywhere (s old : String) : String :=
  String.mk (List.flatten (splitOnFuel old.data s.data.length s.data))

/-- Embedding of Python `pat in s` for strings: substring containment. -/
def containsSubList (needle : List Char) : List Char → Bool
  | [] => needle.isEmpty
  | c :: rest => needle.isPrefixOf (c :: rest) || containsSubList needle rest

/-- String-level wrapper for substring containment: `pat` occurs in `s`. -/
def containsSubStr (s pat : String) : Bool :=
  containsSubList pat.data s.data

/-! ## JSON values and the embedding of `json.loads` -/

/-- JSON values as produced by Python `json.loads`: `null`/`true`/`false`,
numbers, strings, arrays, and objects (association lists in insertion
order, duplicate keys resolved as Python dicts do).  Numbers are kept as
their validated lexeme, so no floating-point arithmetic is modelled. -/
inductive Json where
  | null
  | bool (b : Bool)
  | num (lexeme : String)
  | str (s : String)
  | arr (items : List Json)
  | obj (fields : List (String × Json))
deriving Repr

/-- Whitespace skipping between JSON tokens (the characters Python's
`json` module skips: space, tab, newline, carriage return). -/
def skipWs : List Char → List Char
  | [] => []
  | c :: rest =>
    if c = ' ' ∨ c = '\t' ∨ c = '\n' ∨ c = '\r' then skipWs rest else c :: rest

/-- Value of a hexadecimal digit character, if it is one. -/
def hexVal (c : Char) : Option Nat :=
  if '0' ≤ c ∧ c ≤ '9' then some (c.toNat - 48)
  else if 'a' ≤ c ∧ c ≤ 'f' then some (c.toNat - 87)
  else if 'A' ≤ c ∧ c ≤ 'F' then some (c.toNat - 55)
  else none

/-- Longest digit prefix of a character list, with the remainder. -/
def takeDigits (s : List Char) : List Char × List Char :=
  (s.takeWhile (fun c => c.isDigit), s.dropWhile (fun c => c.isDigit))

/-- Integer part of a JSON number: `0`, or a nonzero digit followed by
digits (leading zeros are rejected, as in the JSON grammar). -/
def parseIntPart : List Char → Option (List Char × List Char)
  | [] => none
  | c :: r =>
    if c = '0' then some ([c], r)
    else if c.isDigit then
      let p := takeDigits r
      some (c :: p.1, p.2)
    else none

/-- Optional fraction part `.digits` of a JSON number. -/
def parseOptFrac (s : List Char) : Option (List Char × List Char) :=
  match s with
  | '.' :: r =>
    let p := takeDigits r
    if p.1.isEmpty then none else some ('.' :: p.1, p.2)
  | _ => some ([], s)

/-- Optional exponent part `e[+-]digits` of a JSON number. -/
def parseOptExp (s : List Char) : Option (List Char × List Char) :=
  match s with
  | c :: r =>
    if c = 'e' ∨ c = 'E' then
      let sgnRest : List Char × List Char :=
        match r with
        | c2 :: r2 => if c2 = '+' ∨ c2 = '-' then ([c2], r2) else ([], r)
        | [] => ([], r)
      let p := takeDigits sgnRest.2
      if p.1.isEmpty then none else some (c :: sgnRest.1 ++ p.1, p.2)
    else some ([], s)
  | [] => some ([], [])

/-- Lexeme of a JSON number (`-? int frac? exp?`), with the remainder. -/
def parseNumLex (s : List Char) : Option (List Char × List Char) :=
  let signRest : List Char × List Char :=
    match s with
    | '-' :: r => (['-'], r)
    | _ => ([], s)
  match parseIntPart signRest.2 with
  | none => none
  | some (ip, r1) =>
    match parseOptFrac r1 with
    | none => none
    | some (fp, r2) =>
      match parseOptExp r2 with
      | none => none
      | some (ep, r3) => some (signRest.1 ++ ip ++ fp ++ ep, r3)

/-- Insertion of a key/value pair into a parsed object the way a Python
dict handles a duplicate key: the first occurrence keeps its position, the
value is overwritten. -/
def insertField (k : String) (v : Json) : List (String × Json) → List (String × Json)
  | [] => [(k, v)]
  | kv :: rest => if kv.1 = k then (k, v) :: rest else kv :: insertField k v rest

/-- Left brace character, written by codepoint. -/
def lbrace : Char := Char.ofNat 123

/-- Right brace character, written by codepoint. -/
def rbrace : Char := Char.ofNat 125

/-- Parser state: a whole value, the body of a string literal, the items of
a nonempty array, or the key/value pairs of a nonempty object. -/
inductive PMode where
  | value
  | strBody (acc : List Char)
  | arrItems (acc : List Json)
  | objPairs (acc : List (String × Json))

/-- Recursive-descent JSON parser, the embedding of Python `json.loads`
(including its `NaN`/`Infinity`/`-Infinity` extensions and its rejection of
unescaped control characters in strings).  Fuel-based so that the kernel
can evaluate it; every recursive call decrements the fuel and consumes
input, so `2 * length + 8` fuel always suffices at top level.  Fidelity
note: a `\u` escape becomes the scalar `Char` of its code, so surrogate
pairs (astral-plane characters) are not recombined. -/
def parseV : Nat → PMode → List Char → Option (Json × List Char)
  | 0, _, _ => none
  | fuel + 1, .value, s =>
    match skipWs s with
    | [] => none
    | c :: rest =>
      if c = '"' then parseV fuel (.strBody []) rest
      else if c = lbrace then
        match skipWs rest with
        | c2 :: rest2 =>
          if c2 = rbrace then some (.obj [], rest2)
          else parseV fuel (.objPairs []) (c2 :: rest2)
        | [] => none
      else if c = '[' then
        match skipWs rest with
        | c2 :: rest2 =>
          if c2 = ']' then some (.arr [], rest2)
          else parseV fuel (.arrItems []) (c2 :: rest2)
        | [] => none
      else
        match c :: rest with
        | 'n' :: 'u' :: 'l' :: 'l' :: r => some (.null, r)
        | 't' :: 'r' :: 'u' :: 'e' :: r => some (.bool true, r)
        | 'f' :: 'a' :: 'l' :: 's' :: 'e' :: r => some (.bool false, r)
        | 'N' :: 'a' :: 'N' :: r => some (.num "NaN", r)
        | 'I' :: 'n' :: 'f' :: 'i' :: 'n' :: 'i' :: 't' :: 'y' :: r =>
          some (.num "Infinity", r)
        | '-' :: 'I' :: 'n' :: 'f' :: 'i' :: 'n' :: 'i' :: 't' :: 'y' :: r =>
          some (.num "-Infinity", r)
        | s2 =>
          match parseNumLex s2 with
          | some (lex, r) => some (.num (String.mk lex), r)
          | none => none
  | fuel + 1, .strBody acc, s =>
    match s with
    | [] => none
    | c :: rest =>
      if c = '"' then some (.str (String.mk acc.reverse), rest)
      else if c = '\\' then
        match rest with
        | [] => none
        | e :: rest2 =>
          if e = '"' then parseV fuel (.strBody ('"' :: acc)) rest2
          else if e = '\\' then parseV fuel (.strBody ('\\' :: acc)) rest2
          else if e = '/' then parseV fuel (.strBody ('/' :: acc)) rest2
          else if e = 'b' then parseV fuel (.strBody (Char.ofNat 8 :: acc)) rest2
          else if e = 'f' then parseV fuel (.strBody (Char.ofNat 12 :: acc)) rest2
          else if e = 'n' then parseV fuel (.strBody ('\n' :: acc)) rest2
          else if e = 'r' then parseV fuel (.strBody ('\r' :: acc)) rest2
          else if e = 't' then parseV fuel (.strBody ('\t' :: acc)) rest2
          else if e = 'u' then
            match rest2 with
            | h1 :: h2 :: h3 :: h4 :: rest3 =>
              match hexVal h1, hexVal h2, hexVal h3, hexVal h4 with
              | some a, some b, some c2, some d =>
                parseV fuel (.strBody (Char.ofNat (((a * 16 + b) * 16 + c2) * 16 + d) :: acc)) rest3
              | _, _, _, _ => none
            | _ => none
          else none
      else if c.toNat < 32 then none
      else parseV fuel (.strBody (c :: acc)) rest
  | fuel + 1, .arrItems acc, s =>
    match parseV fuel .value s with
    | none => none
    | some (v, rest) =>
      match skipWs rest with
      | c :: rest2 =>
        if c = ',' then parseV fuel (.arrItems (acc ++ [v])) rest2
        else if c = ']' then some (.arr (acc ++ [v]), rest2)
        else none
      | [] => none
  | fuel + 1, .objPairs acc, s =>
    match skipWs s with
    | c :: rest =>
      if c = '"' then
        match parseV fuel (.strBody []) rest with
        | some (.str k, rest2) =>
          match skipWs rest2 with
          | c2 :: rest3 =>
            if c2 = ':' then
              match parseV fuel .value rest3 with
              | some (v, rest4) =>
                match skipWs rest4 with
                | c3 :: rest5 =>
                  if c3 = ',' then parseV fuel (.objPairs (insertField k v acc)) rest5
                  else if c3 = rbrace then some (.obj (insertField k v acc), rest5)
                  else none
                | [] => none
              | _ => none
            else none
          | [] => none
        | _ => none
      else none
    | [] => none

/-- Embedding of Python `json.loads`: parse one value and require only
whitespace afterwards; any failure (including trailing data) raises
`JSONDecodeError`, modelled as `none`. -/
def pyJsonLoads (s : String) : Option Json :=
  match parseV (2 * s.data.length + 8) .value s.data with
  | some (v, rest) => if (skipWs rest).isEmpty then some v else none
  | none => none

/-! ## Python value semantics for parsed JSON values -/

/-- Whether a number lexeme denotes a Python `int` (no fraction, exponent,
or `NaN`/`Infinity` parts): `json.loads` produces `int` exactly for these. -/
def numLexIsInt (lex : String) : Bool :=
  lex ≠ "NaN" && lex ≠ "Infinity" && lex ≠ "-Infinity" &&
    lex.data.all (fun c => c.isDigit || c = '-')

/-- Whether a number lexeme denotes the value zero (so the Python number is
falsy). -/
def numLexIsZero (lex : String) : Bool :=
  let mantissa :=
    (match lex.data with
      | '-' :: r => r
      | l => l).takeWhile (fun c => c ≠ 'e' ∧ c ≠ 'E')
  !mantissa.isEmpty && mantissa.all (fun c => c = '0' ∨ c = '.')

/-- Python truthiness (`bool(x)`) of a value produced by `json.loads`:
`None`, `False`, numeric zero, and empty strings/lists/dicts are falsy. -/
def pyTruthy : Json → Bool
  | .null => false
  | .bool b => b
  | .num lex => !numLexIsZero lex
  | .str s => !(s = "")
  | .arr items => !items.isEmpty
  | .obj fields => !fields.isEmpty

/-- Python name of the type of a parsed JSON value, as it appears in
`TypeError` messages. -/
def pyTypeName : Json → String
  | .null => "NoneType"
  | .bool _ => "bool"
  | .num lex => if numLexIsInt lex then "int" else "float"
  | .str _ => "str"
  | .arr _ => "list"
  | .obj _ => "dict"

/-- Embedding of the Python membership test `key in data` for a string
`key`: key lookup for dicts, element equality for lists, substring test for
strings, and a `TypeError` (modelled as `.error`) for values that are not
iterable. -/
def pyContainsStr (key : String) : Json → Except String Bool
  | .obj fields => .ok (fields.any (fun kv => kv.1 == key))
  | .arr items =>
    .ok (items.any (fun v => match v with | .str s => s == key | _ => false))
  | .str s => .ok (containsSubStr s key)
  | v => .error ("TypeError: argument of type " ++ sq ++ pyTypeName v ++ sq ++ " is not iterable")

/-- Embedding of Python subscription `data[key]` for a string `key`:
dict lookup (a `KeyError` if absent), and a `TypeError` for every other
value produced by `json.loads`. -/
def pySubscriptStr (data : Json) (key : String) : Except String Json :=
  match data with
  | .obj fields =>
    match fields.find? (fun kv => kv.1 == key) with
    | some kv => .ok kv.2
    | none => .error ("KeyError: " ++ sq ++ key ++ sq)
  | .arr _ => .error "TypeError: list indices must be integers or slices, not str"
  | .str _ => .error "TypeError: string indices must be integers"
  | v => .error ("TypeError: " ++ sq ++ pyTypeName v ++ sq ++ " object is not subscriptable")

/-- Python `str()` of a number produced by `json.loads`, by lexeme.
Integer lexemes are already canonical apart from `-0`; for non-integer
(float) lexemes CPython prints the shortest round-tripping decimal, which
coincides with the lexeme for plain decimals such as `0.5`; scientific
notation is kept as the lexeme rather than re-rendered, since exact IEEE
formatting is out of scope. -/
def pyNumStr (lex : String) : String :=
  if lex = "NaN" then "nan"
  else if lex = "Infinity" then "inf"
  else if lex = "-Infinity" then "-inf"
  else if lex = "-0" then "0"
  else lex

/-- Lowercase hexadecimal digit for a value below 16. -/
def hexDigitChar (n : Nat) : Char :=
  if n < 10 then Char.ofNat (48 + n) else Char.ofNat (87 + n)

/-- Two lowercase hexadecimal digits of a byte value. -/
def hexByte (n : Nat) : String :=
  String.mk [hexDigitChar (n / 16 % 16), hexDigitChar (n % 16)]

/-- Escaping of one character inside a Python `repr` of a string quoted
with `quote`. -/
def pyCharEscape (quote c : Char) : String :=
  if c = '\\' then "\\\\"
  else if c = quote then String.mk ['\\', quote]
  else if c = '\n' then "\\n"
  else if c = '\r' then "\\r"
  else if c = '\t' then "\\t"
  else if c.toNat < 32 ∨ c.toNat = 127 then "\\x" ++ hexByte c.toNat
  else String.mk [c]

/-- Python `repr()` of a string: single-quoted unless the string contains a
single quote and no double quote. -/
def pyStrReprStr (s : String) : String :=
  let q := if s.data.contains squote && !(s.data.contains '"') then '"' else squote
  String.mk [q] ++ String.join (s.data.map (pyCharEscape q)) ++ String.mk [q]

/-- Comma-space separated concatenation, as inside Python list/dict
`repr`s. -/
def commaJoin : List String → String
  | [] => ""
  | [s] => s
  | s :: rest => s ++ ", " ++ commaJoin rest

/-- Python `repr()` of a value produced by `json.loads`, fuel-bounded over
the nesting depth (callers pass `sizeOf`, which always suffices). -/
def pyReprFuel : Nat → Json → String
  | 0, _ => ""
  | fuel + 1, j =>
    match j with
    | .null => "None"
    | .bool true => "True"
    | .bool false => "False"
    | .num lex => pyNumStr lex
    | .str s => pyStrReprStr s
    | .arr items => "[" ++ commaJoin (items.map (pyReprFuel fuel)) ++ "]"
    | .obj fields =>
      String.mk [lbrace] ++
        commaJoin (fields.map (fun kv => pyStrReprStr kv.1 ++ ": " ++ pyReprFuel fuel kv.2)) ++
        String.mk [rbrace]

mutual

/-- Size of a JSON value, used as fuel for `pyReprFuel` (it strictly
dominates the nesting depth). -/
def jsonSize : Json → Nat
  | .arr items => 1 + jsonSizeItems items
  | .obj fields => 1 + jsonSizeFields fields
  | _ => 1

/-- Summed size of a list of JSON values. -/
def jsonSizeItems : List Json → Nat
  | [] => 0
  | j :: rest => jsonSize j + jsonSizeItems rest

/-- Summed size of the values of an association list. -/
def jsonSizeFields : List (String × Json) → Nat
  | [] => 0
  | kv :: rest => jsonSize kv.2 + jsonSizeFields rest

end

/-- Python `str()` of a value produced by `json.loads`: strings are
returned as-is, containers fall back to `repr`, and the scalar values print
their canonical forms. -/
def pyStr : Json → String
  | .str s => s
  | .null => "None"
  | .bool true => "True"
  | .bool false => "False"
  | .num lex => pyNumStr lex
  | .arr items => pyReprFuel (jsonSize (Json.arr items)) (.arr items)
  | .obj fields => pyReprFuel (jsonSize (Json.obj fields)) (.obj fields)

/-! ## HTTP model and the two request handlers of `src/app.py` -/

/-- An uploaded multipart file: the werkzeug `FileStorage` object the
handler reads `filename` and `stream` from. -/
structure UploadedFile where
  filename : String
  content : List Nat

/-- An in-memory PIL image, kept abstract apart from its originating
bytes. -/
structure PyImage where
  source : List Nat

/-- JSON HTTP response: the status code and the body that `jsonify`
serializes. -/
structure HttpResponse where
  status : Nat
  body : Json

/-- Result of running a handler: either a response the handler itself
built, or an exception that escaped the handler (Flask then produces its
generic error page, outside this code). -/
inductive HandlerResult where
  | resp (r : HttpResponse)
  | uncaught (msg : String)

/-- External step performed by the image handler: decoding the upload with
`Image.open`, or calling `model.generate_content` with a prompt and an
image. -/
inductive AnalyzeStep where
  | openedImage (f : UploadedFile)
  | calledModel (prompt : String) (img : PyImage)

/-- Environment of the image handler: the two fallible external calls
(`Image.open`, `model.generate_content`, with `.error` carrying `str(e)` of
the raised exception), and the `str()` of the `JSONDecodeError` that
`json.loads` raises on a given input (a CPython-internal message, so it is
part of the environment, not of the embedded code). -/
structure AnalyzeEnv where
  image_open : UploadedFile → Except String PyImage
  generate_content : String → PyImage → Except String String
  json_error_str : String → String

/-- The fixed instructional prompt `image_analysis_prompt` of
`src/app.py` (a triple-quoted literal, so it begins and ends with a
newline). -/
def image_analysis_prompt : String :=
  "\nYou are an expert plant pathologist. Your first task is to determine if the image contains a plant leaf.\n\nYour analysis is restricted to the following plants: Apple, Banana, Cherry, Corn, Grape, Orange, Peach, Pepper, Potato, Raspberry, Soybean, Squash, Strawberry, and Tomato.\n\nProvide your response ONLY in a valid JSON format with the following keys:\n- \"is_plant_leaf\": A boolean value (true or false).\n- \"plant\": If is_plant_leaf is true, provide the common name of the plant from the list. If the plant is not on the list, return \"Unsupported Plant\". If is_plant_leaf is false, return \"N/A\".\n- \"disease\": If a supported plant is identified, provide the disease name (e.g., \"Black Rot\") or \"Healthy\". If the plant is unsupported or not a leaf, return \"N/A\".\n- \"description\": A brief description. If not a plant leaf, state \"The uploaded image does not appear to be a plant leaf.\" If unsupported, state \"This plant is not supported by our service.\" Otherwise, describe the disease.\n- \"confidence\": Your confidence level (\"High\", \"Medium\", \"Low\"). If not a plant or unsupported, return \"N/A\".\n\nDo not include any other text or explanations outside of the JSON object.\n"

/-- The prompt template `treatment_plan_prompt_template` of `src/app.py`,
with its `\x7bdisease_name\x7d` placeholder (braces written by escape). -/
def treatment_plan_prompt_template : String :=
  "\nYou are an agricultural advisor. A farmer has identified \"\x7bdisease_name\x7d\" on their plant.\nGenerate a concise, actionable treatment plan. Structure the plan with the following sections:\n1.  **Immediate Actions:** What to do right now (e.g., pruning, isolating plants).\n2.  **Organic Solutions:** Safe, organic treatment options.\n3.  **Chemical Solutions:** Common and effective fungicides or treatments to recommend.\n4.  **Prevention Tips:** How to prevent this issue in the future.\n\nKeep the language clear and easy for a non-expert to understand.\n"

/-- Embedding of `treatment_plan_prompt_template.format(disease_name=v)`:
the template holds that single placeholder and no other brace, so `format`
is substitution of the placeholder by the argument's `str()` form (already
applied by the caller), without rescanning the inserted text. -/
def treatment_plan_prompt (disease_name : String) : String :=
  pyReplace treatment_plan_prompt_template "\x7bdisease_name\x7d" disease_name

/-- The cleaning step of line 83 of `src/app.py`, producing the text handed
to `json.loads`:
`response.text.strip().replace(three-backticks-json, empty).replace(three-backticks, empty)`. -/
def analyzeParserInput (text : String) : String :=
  pyReplace (pyReplace (pyStrip text) "```json" "") "```" ""

/-- Error body built by the `except` clause of `/analyze-image`. -/
def analysisErrorBody (e : String) : Json :=
  .obj [("error", .str ("An error occurred during analysis: " ++ e))]

/-- Embedding of `analyze_image_endpoint` (`src/app.py` lines 66-90).
`none` models a multipart form without a `file` field.  The second
component records the external steps taken, in order. -/
def analyze_image_endpoint (env : AnalyzeEnv) :
    Option UploadedFile → HandlerResult × List AnalyzeStep
  | none => (.resp ⟨400, .obj [("error", .str "No file part")]⟩, [])
  | some file =>
    if file.filename = "" then
      (.resp ⟨400, .obj [("error", .str "No selected file")]⟩, [])
    else
      match env.image_open file with
      | .error e => (.resp ⟨500, analysisErrorBody e⟩, [.openedImage file])
      | .ok img =>
        match env.generate_content image_analysis_prompt img with
        | .error e =>
          (.resp ⟨500, analysisErrorBody e⟩,
            [.openedImage file, .calledModel image_analysis_prompt img])
        | .ok text =>
          match pyJsonLoads (analyzeParserInput text) with
          | some result =>
            (.resp ⟨200, result⟩,
              [.openedImage file, .calledModel image_analysis_prompt img])
          | none =>
            (.resp ⟨500, analysisErrorBody (env.json_error_str (analyzeParserInput text))⟩,
              [.openedImage file, .calledModel image_analysis_prompt img])

/-- The 400 body of `/get-treatment-plan` when `disease_name` is missing. -/
def missingDiseaseNameBody : Json :=
  .obj [("error", .str ("Missing " ++ sq ++ "disease_name" ++ sq ++ " in request body"))]

/-- Embedding of `get_treatment_plan_endpoint` (`src/app.py` lines 92-112).
The argument is the result of `request.get_json()` (`none` for a missing
body, which Python's `not data` also sends to the 400 branch).  The checks
`not data` and the `in` test mirror Python truthiness and membership; the
subscription `data[...]` sits outside the `try`, so its exceptions escape
the handler (`.uncaught`).  The second component records the prompts sent
to `model.generate_content`. -/
def get_treatment_plan_endpoint (generate_content : String → Except String String) :
    Option Json → HandlerResult × List String
  | none => (.resp ⟨400, missingDiseaseNameBody⟩, [])
  | some data =>
    if pyTruthy data then
      match pyContainsStr "disease_name" data with
      | .error e => (.uncaught e, [])
      | .ok false => (.resp ⟨400, missingDiseaseNameBody⟩, [])
      | .ok true =>
        match pySubscriptStr data "disease_name" with
        | .error e => (.uncaught e, [])
        | .ok v =>
          let prompt := treatment_plan_prompt (pyStr v)
          match generate_content prompt with
          | .ok text => (.resp ⟨200, .obj [("plan", .str text)]⟩, [prompt])
          | .error e =>
            (.resp ⟨500, .obj [("error", .str ("An error occurred while generating the plan: " ++ e))]⟩,
              [prompt])
    else (.resp ⟨400, missingDiseaseNameBody⟩, [])

/-! ## Helper lemmas -/

/-- Splitting never yields an empty list of segments. -/
theorem splitOnFuel_ne_nil (old : List Char) (fuel : Nat) (s : List Char) :
    splitOnFuel old fuel s ≠ [] := by
  cases fuel with
  | zero => simp [splitOnFuel]
  | succ n =>
    cases s with
    | nil => simp [splitOnFuel]
    | cons c rest =>
      simp only [splitOnFuel]
      split
      · simp
      · cases h : splitOnFuel old n rest <;> simp [h]

/-- Concatenating the segments of a split is exactly replacement by the
empty string: Python's `s.replace(old, "")` deletes every non-overlapping
occurrence of `old`, wherever it appears. -/
theorem flatten_splitOnFuel (old : List Char) :
    ∀ (fuel : Nat) (s : List Char),
      List.flatten (splitOnFuel old fuel s) = replaceAllFuel old [] fuel s := by
  intro fuel
  induction fuel with
  | zero => intro s; simp [splitOnFuel, replaceAllFuel]
  | succ n ih =>
    intro s
    cases s with
    | nil => simp [splitOnFuel, replaceAllFuel]
    | cons c rest =>
      simp only [splitOnFuel, replaceAllFuel]
      split
      · simp [ih]
      · cases h : splitOnFuel old n rest with
        | nil => exact absurd h (splitOnFuel_ne_nil old n rest)
        | cons g gs =>
          have hrest := ih rest
          rw [h] at hrest
          simp only [List.flatten_cons] at hrest ⊢
          simp [← hrest]

/-- String-level form: deleting every occurrence equals `replace` with the
empty replacement. -/
theorem deleteEverywhere_eq_pyReplace (s old : String) :
    deleteEverywhere s old = pyReplace s old "" := by
  unfold deleteEverywhere pyReplace
  rw [flatten_splitOnFuel]

/-! ## The claims -/

/-- The concrete fenced model reply of claim C1. -/
def fencedTomatoReply : String :=
  "```json\n\x7b\"plant\":\"Tomato\",\"disease\":\"Healthy\"\x7d\n```"

/-- C1: if the model's textual reply to `/analyze-image` is the fenced
string with body `\x7b"plant":"Tomato","disease":"Healthy"\x7d`, the
endpoint strips the fence markers and surrounding whitespace, parses the
remainder as JSON, and returns the object with plant `Tomato` and disease
`Healthy` with a 200 status. -/
theorem claim1_fenced_reply_parsed :
    ∀ (env : AnalyzeEnv) (file : UploadedFile) (img : PyImage),
      file.filename ≠ "" →
      env.image_open file = .ok img →
      env.generate_content image_analysis_prompt img = .ok fencedTomatoReply →
      (analyze_image_endpoint env (some file)).1 =
        .resp ⟨200, .obj [("plant", .str "Tomato"), ("disease", .str "Healthy")]⟩ := by
  intro env file img hname hopen hgen
  simp only [analyze_image_endpoint, if_neg hname, hopen, hgen]
  rfl

/-- Witness for C1 at a concrete environment and upload. -/
theorem claim1_fenced_reply_parsed_witness :
    (analyze_image_endpoint
        ⟨fun _ => .ok ⟨[]⟩, fun _ _ => .ok fencedTomatoReply, fun _ => "E"⟩
        (some ⟨"leaf.png", [1, 2, 3]⟩)).1 =
      .resp ⟨200, .obj [("plant", .str "Tomato"), ("disease", .str "Healthy")]⟩ :=
  claim1_fenced_reply_parsed _ _ ⟨[]⟩ (by decide) rfl rfl

/-- C2: for `/get-treatment-plan` with disease_name `Black Rot` and a
successful model call, the prompt sent to the model contains the literal
substring `Black Rot`, and the response is 200 with a JSON body whose
single `plan` field is exactly the model's reply text, unmodified. -/
theorem claim2_black_rot_prompt_and_plan :
    ∀ (generate_content : String → Except String String) (reply : String),
      generate_content (treatment_plan_prompt "Black Rot") = .ok reply →
      containsSubStr (treatment_plan_prompt "Black Rot") "Black Rot" = true ∧
      get_treatment_plan_endpoint generate_content
          (some (.obj [("disease_name", .str "Black Rot")])) =
        (.resp ⟨200, .obj [("plan", .str reply)]⟩, [treatment_plan_prompt "Black Rot"]) := by
  intro gen reply hgen
  refine ⟨rfl, ?_⟩
  have hstep : get_treatment_plan_endpoint gen
      (some (.obj [("disease_name", .str "Black Rot")])) =
      (match gen (treatment_plan_prompt "Black Rot") with
        | .ok text =>
          (.resp ⟨200, .obj [("plan", .str text)]⟩, [treatment_plan_prompt "Black Rot"])
        | .error e =>
          (.resp ⟨500, .obj [("error", .str ("An error occurred while generating the plan: " ++ e))]⟩,
            [treatment_plan_prompt "Black Rot"])) := rfl
  rw [hstep, hgen]

/-- Witness for C2 with a concrete model function. -/
theorem claim2_black_rot_prompt_and_plan_witness :
    containsSubStr (treatment_plan_prompt "Black Rot") "Black Rot" = true ∧
    get_treatment_plan_endpoint (fun _ => .ok "Prune affected branches.")
        (some (.obj [("disease_name", .str "Black Rot")])) =
      (.resp ⟨200, .obj [("plan", .str "Prune affected branches.")]⟩,
        [treatment_plan_prompt "Black Rot"]) :=
  claim2_black_rot_prompt_and_plan _ "Prune affected branches." rfl

/-- C4: for every model reply whose text is not valid JSON after
fence-stripping, `/analyze-image` returns 500 with an `error` field holding
the stringified parse exception prefixed by
`An error occurred during analysis: `. -/
theorem claim4_invalid_json_reply_500 :
    ∀ (env : AnalyzeEnv) (file : UploadedFile) (img : PyImage) (text : String),
      file.filename ≠ "" →
      env.image_open file = .ok img →
      env.generate_content image_analysis_prompt img = .ok text →
      pyJsonLoads (analyzeParserInput text) = none →
      (analyze_image_endpoint env (some file)).1 =
        .resp ⟨500, analysisErrorBody (env.json_error_str (analyzeParserInput text))⟩ := by
  intro env file img text hname hopen hgen hparse
  simp only [analyze_image_endpoint, if_neg hname, hopen, hgen, hparse]

/-- Witness for C4 at the non-JSON reply `not json`. -/
theorem claim4_invalid_json_reply_500_witness :
    (analyze_image_endpoint
        ⟨fun _ => .ok ⟨[]⟩, fun _ _ => .ok "not json",
          fun _ => "Expecting value: line 1 column 1 (char 0)"⟩
        (some ⟨"leaf.png", []⟩)).1 =
      .resp ⟨500, analysisErrorBody "Expecting value: line 1 column 1 (char 0)"⟩ :=
  claim4_invalid_json_reply_500 _ _ ⟨[]⟩ "not json" (by decide) rfl rfl rfl

/-- C5: every request to `/analyze-image` whose multipart form lacks a
`file` field gets status 400 with body `\x7b"error": "No file part"\x7d`,
whatever the environment. -/
theorem claim5_no_file_part :
    ∀ env : AnalyzeEnv,
      analyze_image_endpoint env none =
        (.resp ⟨400, .obj [("error", .str "No file part")]⟩, []) :=
  fun _ => rfl

/-- C6: every request to `/analyze-image` whose uploaded file has an empty
filename gets status 400 with body `\x7b"error": "No selected file"\x7d`,
whatever the file content and environment. -/
theorem claim6_empty_filename :
    ∀ (env : AnalyzeEnv) (content : List Nat),
      analyze_image_endpoint env (some ⟨"", content⟩) =
        (.resp ⟨400, .obj [("error", .str "No selected file")]⟩, []) :=
  fun _ _ => rfl

/-- C7: for every model reply whose cleaned text parses as JSON, the parsed
value is returned verbatim as the 200 response body, with no check of any
field's presence or type. -/
theorem claim7_parsed_value_verbatim :
    ∀ (env : AnalyzeEnv) (file : UploadedFile) (img : PyImage) (text : String) (v : Json),
      file.filename ≠ "" →
      env.image_open file = .ok img →
      env.generate_content image_analysis_prompt img = .ok text →
      pyJsonLoads (analyzeParserInput text) = some v →
      (analyze_image_endpoint env (some file)).1 = .resp ⟨200, v⟩ := by
  intro env file img text v hname hopen hgen hparse
  simp only [analyze_image_endpoint, if_neg hname, hopen, hgen, hparse]

/-- Witness for C7 at a reply that is a JSON array, nothing like the
five-field schema. -/
theorem claim7_parsed_value_verbatim_witness :
    (analyze_image_endpoint
        ⟨fun _ => .ok ⟨[]⟩, fun _ _ => .ok "[true]", fun _ => "E"⟩
        (some ⟨"leaf.png", []⟩)).1 =
      .resp ⟨200, .arr [.bool true]⟩ :=
  claim7_parsed_value_verbatim _ _ ⟨[]⟩ "[true]" (.arr [.bool true]) (by decide) rfl rfl rfl

/-- C3 counterexample: the claim promises the 400 validation response for
every body lacking a `disease_name` field, but for the JSON body `17`
(which has no fields at all) the membership test `"disease_name" in 17`
raises a `TypeError` that escapes the handler — no response with the 400
body is built at all. -/
theorem claim3_counterexample :
    (get_treatment_plan_endpoint (fun _ => .ok "") (some (.num "17"))).1 =
      .uncaught ("TypeError: argument of type " ++ sq ++ "int" ++ sq ++ " is not iterable") ∧
    ∀ r : HttpResponse,
      (get_treatment_plan_endpoint (fun _ => .ok "") (some (.num "17"))).1 ≠ .resp r := by
  refine ⟨rfl, ?_⟩
  intro r h
  rw [show (get_treatment_plan_endpoint (fun _ => .ok "") (some (.num "17"))).1 =
      .uncaught ("TypeError: argument of type " ++ sq ++ "int" ++ sq ++ " is not iterable")
    from rfl] at h
  exact HandlerResult.noConfusion h

/-- C3 (amended): for every POST to `/get-treatment-plan` whose body is
missing or is a JSON object lacking a `disease_name` key, the response is
400 with body `\x7b"error": "Missing 'disease_name' in request body"\x7d`
and no model invocation is attempted (the recorded prompt list is empty). -/
theorem claim3_missing_disease_name_400 :
    ∀ (generate_content : String → Except String String) (body? : Option Json),
      (body? = none ∨
        ∃ fields, body? = some (.obj fields) ∧ ∀ kv ∈ fields, kv.1 ≠ "disease_name") →
      get_treatment_plan_endpoint generate_content body? =
        (.resp ⟨400, missingDiseaseNameBody⟩, []) := by
  intro gen body? h
  rcases h with h | ⟨fields, h, hfields⟩
  · subst h; rfl
  · subst h
    cases fields with
    | nil => rfl
    | cons kv rest =>
      have hany : (kv :: rest).any (fun kv => kv.1 == "disease_name") = false := by
        rw [List.any_eq_false]
        intro x hx
        simp only [beq_iff_eq]
        exact hfields x hx
      simp [get_treatment_plan_endpoint, pyTruthy, pyContainsStr, hany]

/-- Witness for C3 (amended) at a missing body. -/
theorem claim3_missing_disease_name_400_witness :
    get_treatment_plan_endpoint (fun _ => .ok "") none =
      (.resp ⟨400, missingDiseaseNameBody⟩, []) :=
  claim3_missing_disease_name_400 _ none (Or.inl rfl)

/-- C8: in every execution of either endpoint that returns a 400
validation response, no external step happened: the image endpoint's step
trace (image decoding, model calls) and the plan endpoint's prompt trace
are empty. -/
theorem claim8_validation_before_external_calls :
    (∀ (env : AnalyzeEnv) (file? : Option UploadedFile) (r : HttpResponse),
        (analyze_image_endpoint env file?).1 = .resp r → r.status = 400 →
        (analyze_image_endpoint env file?).2 = []) ∧
    (∀ (generate_content : String → Except String String) (body? : Option Json)
        (r : HttpResponse),
        (get_treatment_plan_endpoint generate_content body?).1 = .resp r → r.status = 400 →
        (get_treatment_plan_endpoint generate_content body?).2 = []) := by
  constructor
  · intro env file? r h1 h2
    cases file? with
    | none => rfl
    | some file =>
      by_cases hf : file.filename = ""
      · simp [analyze_image_endpoint, hf]
      · cases hopen : env.image_open file with
        | error e =>
          simp only [analyze_image_endpoint, if_neg hf, hopen] at h1
          cases h1; simp at h2
        | ok img =>
          cases hgen : env.generate_content image_analysis_prompt img with
          | error e =>
            simp only [analyze_image_endpoint, if_neg hf, hopen, hgen] at h1
            cases h1; simp at h2
          | ok text =>
            cases hparse : pyJsonLoads (analyzeParserInput text) with
            | none =>
              simp only [analyze_image_endpoint, if_neg hf, hopen, hgen, hparse] at h1
              cases h1; simp at h2
            | some v =>
              simp only [analyze_image_endpoint, if_neg hf, hopen, hgen, hparse] at h1
              cases h1; simp at h2
  · intro gen body? r h1 h2
    cases body? with
    | none => rfl
    | some data =>
      by_cases ht : pyTruthy data
      · cases hc : pyContainsStr "disease_name" data with
        | error e =>
          simp only [get_treatment_plan_endpoint, if_pos ht, hc] at h1
          exact absurd h1 (fun h => HandlerResult.noConfusion h)
        | ok b =>
          cases b with
          | false => simp [get_treatment_plan_endpoint, if_pos ht, hc]
          | true =>
            cases hs : pySubscriptStr data "disease_name" with
            | error e =>
              simp only [get_treatment_plan_endpoint, if_pos ht, hc, hs] at h1
              exact absurd h1 (fun h => HandlerResult.noConfusion h)
            | ok v =>
              cases hg : gen (treatment_plan_prompt (pyStr v)) with
              | ok text =>
                simp only [get_treatment_plan_endpoint, if_pos ht, hc, hs, hg] at h1
                cases h1; simp at h2
              | error e =>
                simp only [get_treatment_plan_endpoint, if_pos ht, hc, hs, hg] at h1
                cases h1; simp at h2
      · simp [get_treatment_plan_endpoint, ht]

/-- Witness for C8: both conjuncts applied at concrete 400 executions. -/
theorem claim8_validation_before_external_calls_witness :
    (analyze_image_endpoint ⟨fun _ => .ok ⟨[]⟩, fun _ _ => .ok "", fun _ => ""⟩ none).2 = [] ∧
    (get_treatment_plan_endpoint (fun _ => .ok "") none).2 = [] :=
  ⟨claim8_validation_before_external_calls.1 _ none
      ⟨400, .obj [("error", .str "No file part")]⟩ rfl rfl,
    claim8_validation_before_external_calls.2 _ none
      ⟨400, missingDiseaseNameBody⟩ rfl rfl⟩

/-- The concrete reply of C9's demonstration: a fenced JSON object whose
string value itself contains a triple backtick. -/
def backtickDataReply : String :=
  "```json\n\x7b\"plant\": \"a```b\"\x7d\n```"

/-- C9: the fence-marker removal is a global substring replacement, not a
strip of wrapping delimiters.  First conjunct: for every model reply, the
text handed to the JSON parser is the whitespace-stripped reply with every
occurrence of three-backticks-json and then every occurrence of
three-backticks deleted wherever they appear (deletion stated independently
via split-and-concatenate).  Second conjunct: a reply whose JSON string
value contains a backtick fence has those characters removed from the data,
so `"a```b"` comes back as `"ab"`. -/
theorem claim9_global_fence_deletion :
    (∀ text : String,
      analyzeParserInput text =
        deleteEverywhere (deleteEverywhere (pyStrip text) "```json") "```") ∧
    (∀ (env : AnalyzeEnv) (file : UploadedFile) (img : PyImage),
      file.filename ≠ "" →
      env.image_open file = .ok img →
      env.generate_content image_analysis_prompt img = .ok backtickDataReply →
      (analyze_image_endpoint env (some file)).1 =
        .resp ⟨200, .obj [("plant", .str "ab")]⟩) := by
  constructor
  · intro text
    rw [deleteEverywhere_eq_pyReplace, deleteEverywhere_eq_pyReplace]
    rfl
  · intro env file img hname hopen hgen
    simp only [analyze_image_endpoint, if_neg hname, hopen, hgen]
    rfl

/-- Witness for C9: the equation at a concrete reply, and the data-altering
run at a concrete environment. -/
theorem claim9_global_fence_deletion_witness :
    analyzeParserInput backtickDataReply =
      deleteEverywhere (deleteEverywhere (pyStrip backtickDataReply) "```json") "```" ∧
    (analyze_image_endpoint
        ⟨fun _ => .ok ⟨[]⟩, fun _ _ => .ok backtickDataReply, fun _ => "E"⟩
        (some ⟨"leaf.png", []⟩)).1 =
      .resp ⟨200, .obj [("plant", .str "ab")]⟩ :=
  ⟨claim9_global_fence_deletion.1 backtickDataReply,
    claim9_global_fence_deletion.2 _ _ ⟨[]⟩ (by decide) rfl rfl⟩

/-- C10: `/get-treatment-plan` does no type check on the `disease_name`
value: for every JSON object body whose `disease_name` key holds any truthy
value, the value's Python string form is substituted into the template and
the model is invoked with the resulting prompt (the prompt trace is exactly
that one prompt), and the outcome is never the 400 validation rejection. -/
theorem claim10_no_type_check_on_disease_name :
    ∀ (generate_content : String → Except String String)
      (fields : List (String × Json)) (k : String) (v : Json),
      fields.find? (fun kv => kv.1 == "disease_name") = some (k, v) →
      pyTruthy v = true →
      (get_treatment_plan_endpoint generate_content (some (.obj fields))).2 =
          [treatment_plan_prompt (pyStr v)] ∧
      ∀ r : HttpResponse,
        (get_treatment_plan_endpoint generate_content (some (.obj fields))).1 = .resp r →
        r.status ≠ 400 := by
  intro gen fields k v hfind _htruthy
  have hmem := List.mem_of_find?_eq_some hfind
  have hpred := List.find?_some hfind
  have hany : fields.any (fun kv => kv.1 == "disease_name") = true := by
    rw [List.any_eq_true]; exact ⟨(k, v), hmem, hpred⟩
  have htr : pyTruthy (.obj fields) = true := by
    cases fields with
    | nil => cases hmem
    | cons a l => simp [pyTruthy]
  have hstep : get_treatment_plan_endpoint gen (some (.obj fields)) =
      (match gen (treatment_plan_prompt (pyStr v)) with
        | .ok text =>
          (.resp ⟨200, .obj [("plan", .str text)]⟩, [treatment_plan_prompt (pyStr v)])
        | .error e =>
          (.resp ⟨500, .obj [("error", .str ("An error occurred while generating the plan: " ++ e))]⟩,
            [treatment_plan_prompt (pyStr v)])) := by
    simp only [get_treatment_plan_endpoint, htr, if_true, pyContainsStr, hany,
      pySubscriptStr, hfind]
  constructor
  · cases hg : gen (treatment_plan_prompt (pyStr v)) <;> rw [hstep, hg]
  · intro r h1 h2
    cases hg : gen (treatment_plan_prompt (pyStr v)) with
    | ok text => rw [hstep, hg] at h1; cases h1; simp at h2
    | error e => rw [hstep, hg] at h1; cases h1; simp at h2

/-- Witness for C10 at a numeric `disease_name` value. -/
theorem claim10_no_type_check_on_disease_name_witness :
    (get_treatment_plan_endpoint (fun _ => .ok "x")
        (some (.obj [("disease_name", .num "5")]))).2 =
      [treatment_plan_prompt (pyStr (.num "5"))] ∧
    ∀ r : HttpResponse,
      (get_treatment_plan_endpoint (fun _ => .ok "x")
          (some (.obj [("disease_name", .num "5")]))).1 = .resp r →
      r.status ≠ 400 :=
  claim10_no_type_check_on_disease_name _ _ "disease_name" (.num "5") rfl rfl

end CCE





